import Mathlib

/-!
Verification of the OpenID Connect demo application (Express + Passport +
Prisma/SQLite).  The development shallowly embeds the data model and the
route handlers of src/index.js, the persisted schema of
src/backups/migration.sql.bak, and the session-establishment control flow,
and proves the behavioural claims of the specification against them.
-/

namespace OpenIDDemo

/-- A persisted User row, after the table created in
src/backups/migration.sql.bak: integer autoincrement primary key `id`,
`googleId` text not null, optional `email`, `name`, `picture`, and a
`createdAt` timestamp (modelled as a `Nat`). -/
structure User where
  id : Nat
  googleId : String
  email : Option String
  name : Option String
  picture : Option String
  createdAt : Nat
deriving DecidableEq, Repr

/-- The user store: the rows of the single `User` table. -/
abbrev Store := List User

/-- The profile fields the Google verify callback maps out of an external
profile before upserting (src/index.js lines 90-95): external subject id,
optional email, display name and avatar URL. -/
structure UserData where
  googleId : String
  email : Option String
  name : Option String
  picture : Option String
deriving DecidableEq, Repr

/-- The next autoincrement id: one more than the largest id in the table
(SQLite AUTOINCREMENT; no row is ever deleted by this application). -/
def nextId (s : Store) : Nat :=
  s.foldr (fun u m => max u.id m) 0 + 1

/-- Whether the table already holds a row for the given external id. -/
def hasKey (s : Store) (k : String) : Bool :=
  s.any (fun u => u.googleId = k)

/-- The `update` arm of the upsert: refresh only the mutable profile fields
of the row matching the key, leave every other row untouched. -/
def updateRow (d : UserData) (u : User) : User :=
  if u.googleId = d.googleId then
    { u with email := d.email, name := d.name, picture := d.picture }
  else u

/-- The `prisma.user.upsert` call of the Google verify callback
(src/index.js lines 100-108): keyed on `googleId`; when the key is known,
only the mutable fields `email`, `name`, `picture` are updated; otherwise a
fresh row is created with a fresh id and `createdAt` set to the current
time. -/
def upsert (s : Store) (now : Nat) (d : UserData) : Store :=
  if hasKey s d.googleId then
    s.map (updateRow d)
  else
    s ++ [{ id := nextId s, googleId := d.googleId, email := d.email,
            name := d.name, picture := d.picture, createdAt := now }]

/-- Apply a sequence of upserts (each with its own wall-clock time). -/
def applyUpserts (s : Store) : List (Nat × UserData) → Store
  | [] => s
  | (t, d) :: rest => applyUpserts (upsert s t d) rest

/-- The rows currently stored for an external id. -/
def rowsFor (s : Store) (k : String) : Store :=
  s.filter (fun u => u.googleId = k)

/-- Invariant enforced by the unique index `User_googleId_key`
(src/backups/migration.sql.bak line 12): no two rows share a `googleId`. -/
def uniqueByGoogleId (s : Store) : Prop :=
  s.Pairwise (fun a b => a.googleId ≠ b.googleId)

instance (s : Store) : Decidable (uniqueByGoogleId s) := by
  unfold uniqueByGoogleId; infer_instance

/-- Invariant enforced by the integer primary key: no two rows share an
`id`. -/
def uniqueById (s : Store) : Prop :=
  s.Pairwise (fun a b => a.id ≠ b.id)

instance (s : Store) : Decidable (uniqueById s) := by
  unfold uniqueById; infer_instance

/-- Session state of an incoming request: no cookie, a cookie that does not
resolve to a session record, or a session holding the minimal principal
reference (the user id serialized by passport.serializeUser, src/index.js
lines 124-127). -/
inductive SessionState where
  | noSession
  | unresolvable
  | principal (userId : Nat)
deriving DecidableEq, Repr

/-- The responses a handler can produce: a 302 redirect, a 200 render of a
view, a JSON error body, a rendered error page, or propagation of an error
to the next handler (next(err)). -/
inductive Response where
  | redirect (location : String)
  | renderOk (view : String)
  | jsonError (status : Nat) (message : String)
  | renderError (status : Nat) (message : String)
  | errorNext
deriving DecidableEq, Repr

/-- passport.deserializeUser (src/index.js lines 130-141): look the stored
id up with prisma.user.findUnique; a missing row yields done(null, null),
here `ok none`; only a store fault yields done(err), here an error. -/
def deserializeUser (s : Store) (storeFault : Bool) (id : Nat) :
    Except String (Option User) :=
  if storeFault then Except.error "store fault"
  else Except.ok (s.find? (fun u => u.id = id))

/-- Per-request principal resolution: the session middleware loads the
principal reference and deserializeUser rehydrates it; `none` means the
request is Anonymous (req.isAuthenticated() is false). -/
def resolveUser (s : Store) : SessionState → Option User
  | SessionState.principal uid =>
      match deserializeUser s false uid with
      | Except.ok u => u
      | Except.error _ => none
  | _ => none

/-- Outcome of the route guard. -/
inductive GuardResult where
  | proceed
  | redirectLogin
deriving DecidableEq, Repr

/-- ensureAuthenticated (src/index.js lines 144-165): checks
req.isAuthenticated() on the current request and either forwards to the
handler or redirects to /login; it performs no other action. -/
def ensureAuthenticated (s : Store) (st : SessionState) : GuardResult :=
  if (resolveUser s st).isSome then GuardResult.proceed
  else GuardResult.redirectLogin

/-- GET /dashboard (src/index.js lines 237-256): the guard runs first; when
it proceeds, the handler lists all users and renders the dashboard, and a
store fault during the listing is passed to next(err). The handler never
writes to the store, so the store component of the result is returned
unchanged. -/
def dashboardRoute (s : Store) (st : SessionState) (storeFault : Bool) :
    Response × Store :=
  match ensureAuthenticated s st with
  | GuardResult.redirectLogin => (Response.redirect "/login", s)
  | GuardResult.proceed =>
      if storeFault then (Response.errorNext, s)
      else (Response.renderOk "dashboard", s)

/-- Observable events of a login-completion handler, in the order they
happen: the session write issued to the backing store, the acknowledgement
of that write by the backing store, a response emitted to the client, or
propagation of an error to the error boundary. -/
inductive Event where
  | sessionWrite (userId : Nat)
  | sessionWriteAck
  | respond (r : Response)
  | propagateError
deriving DecidableEq, Repr

/-- Modelled from the spec: req.session.save of the express-session
middleware is not part of src/. Per the specification the
session-establish write "must complete (be acknowledged by the session
backing store) strictly before the redirect response is emitted": the save
callback runs without error only after the backing store acknowledges the
write, and runs with an error otherwise. -/
def sessionSave (uid : Nat) (ackOk : Bool) (next onErr : List Event) :
    List Event :=
  if ackOk then Event.sessionWrite uid :: Event.sessionWriteAck :: next
  else Event.sessionWrite uid :: onErr

/-- Modelled from the spec: req.login of passport is not part of src/. Per
the specification, establish(userId) "(a) writes the minimal principal
reference into session storage, (b) guarantees the write is durably
persisted to the session backing store" before its callback is invoked
without error. -/
def reqLogin (uid : Nat) (ackOk : Bool) (next onErr : List Event) :
    List Event :=
  sessionSave uid ackOk next onErr

/-- The success tail of GET /auth/google/callback (src/index.js lines
214-233): req.session.save, and only inside its callback either next(err)
on failure or the 302 redirect to /dashboard. -/
def googleCallbackSuccess (uid : Nat) (ackOk : Bool) : List Event :=
  sessionSave uid ackOk
    [Event.respond (Response.redirect "/dashboard")]
    [Event.propagateError]

/-- GET /dev-login (src/index.js lines 275-302): after upserting the fixed
synthetic user, req.login runs and only inside its callback either
next(err) on failure or the 302 redirect to /dashboard. -/
def devLoginEvents (uid : Nat) (ackOk : Bool) : List Event :=
  reqLogin uid ackOk
    [Event.respond (Response.redirect "/dashboard")]
    [Event.propagateError]

/-- The fixed synthetic dev user of the bypass (src/index.js lines
277-282). -/
def devTestUser : UserData :=
  { googleId := "dev-google-123", email := some "dev@example.com",
    name := some "Dev Tester", picture := some "" }

/-- Outcome of completing the handshake with the provider. -/
inductive HandshakeOutcome where
  | success (userId : Nat)
  | failure
deriving DecidableEq, Repr

/-- Modelled from the spec: the strategy behind passport.authenticate is
not part of src/. GET /auth/google/callback is configured with
failureRedirect "/login" (src/index.js line 213): per the specification,
on handshake failure the route redirects to the login page without
establishing a session, and on success the handler tail runs. -/
def googleCallbackRoute (h : HandshakeOutcome) (ackOk : Bool) : List Event :=
  match h with
  | HandshakeOutcome.failure => [Event.respond (Response.redirect "/login")]
  | HandshakeOutcome.success uid => googleCallbackSuccess uid ackOk

/-- Scans an event trace: true when no 302 redirect to /dashboard occurs
before the first acknowledgement of the session write. -/
def noDashboardRedirectBeforeAck : List Event → Bool
  | [] => true
  | Event.sessionWriteAck :: _ => true
  | Event.respond (Response.redirect l) :: rest =>
      if l = "/dashboard" then false else noDashboardRedirectBeforeAck rest
  | _ :: rest => noDashboardRedirectBeforeAck rest

/-- A fault reaching the error boundary: its optional HTTP status
(err.status) and its message. -/
structure Err where
  status : Option Nat
  message : String
deriving DecidableEq, Repr

/-- The effective status of a fault: err.status with default 500
(src/index.js line 311). -/
def errStatus (e : Err) : Nat := e.status.getD 500

/-- The global error handler (src/index.js lines 305-324): a JSON body when
the client accepts json and not html, else a rendered error page; in both
shapes the effective status is used, and the message is replaced by a
generic one exactly when the effective status equals 500. -/
def errorBoundary (e : Err) (acceptsJson acceptsHtml : Bool) : Response :=
  let status := errStatus e
  if acceptsJson && !acceptsHtml then
    Response.jsonError status
      (if status = 500 then "Internal server error" else e.message)
  else
    Response.renderError status
      (if status = 500 then "Ocorreu um erro inesperado." else e.message)

/-- Spec-side classification, written from the words of the specification
for comparison with the code: a fault is server-caused when its effective
status is a 5xx code; client-caused faults carry 4xx codes. -/
def isServerFault (e : Err) : Prop := 500 ≤ errStatus e

instance (e : Err) : Decidable (isServerFault e) := by
  unfold isServerFault; infer_instance

/-- The message carried by an error response, when there is one. -/
def shownMessage : Response → Option String
  | Response.jsonError _ m => some m
  | Response.renderError _ m => some m
  | _ => none

/-- The status carried by an error response, when there is one. -/
def shownStatus : Response → Option Nat
  | Response.jsonError st _ => some st
  | Response.renderError st _ => some st
  | _ => none

/-- The configuration surface read from the environment at startup
(src/index.js lines 28-43); only the fields consulted by the session and
route setup are modelled. -/
structure Env where
  port : Option Nat
  sessionSecret : Option String
  nodeEnv : Option String
deriving DecidableEq, Repr

/-- Attributes of the session cookie. -/
structure CookieConfig where
  secure : Bool
  httpOnly : Bool
  maxAge : Nat
deriving DecidableEq, Repr

/-- The options passed to the session middleware. -/
structure SessionOptions where
  secret : String
  resave : Bool
  saveUninitialized : Bool
  cookie : CookieConfig
deriving DecidableEq, Repr

/-- The express-session options built at startup (src/index.js lines
39-52): the secret falls back to the demo default, and the cookie block is
written with literal constants. -/
def sessionOptions (env : Env) : SessionOptions :=
  { secret := env.sessionSecret.getD "set_the_code_on_fire_and_watch_it_burn"
    resave := false
    saveUninitialized := false
    cookie := { secure := false, httpOnly := true
                maxAge := 1000 * 60 * 60 * 24 } }

/-- The paths registered on the app in registration order (src/index.js):
every registration is unconditional; in particular /dev-login is registered
whatever the environment (line 275, comment "Dev login always enabled
now"). -/
def registeredRoutes (_env : Env) : List String :=
  ["/", "/login", "/auth/google", "/auth/google/callback", "/dashboard",
   "/logout", "/dev-login"]

/-- The dev-login flag exposed to every view (src/index.js line 73, comment
"always true now"). -/
def showDevLogin (_env : Env) : Bool := true

/-- A column is unique-or-nullable: no two rows hold the same non-null
value. -/
def colUniqueOrNullable (f : User → Option String) (s : Store) : Prop :=
  s.Pairwise (fun a b => f a = none ∨ f a ≠ f b)

instance (f : User → Option String) (s : Store) :
    Decidable (colUniqueOrNullable f s) := by
  unfold colUniqueOrNullable; infer_instance

/-- The constraints of src/backups/migration.sql.bak: the integer primary
key (unique ids), the unique index on googleId, and the unique index on
the nullable email column. The schema imposes no constraint on name or
picture. -/
def schemaValid (s : Store) : Prop :=
  uniqueById s ∧ uniqueByGoogleId s ∧ colUniqueOrNullable (fun u => u.email) s

instance (s : Store) : Decidable (schemaValid s) := by
  unfold schemaValid; infer_instance

/- Basic lemmas about the store and upsert. -/

theorem id_lt_nextId {s : Store} {u : User} (hu : u ∈ s) : u.id < nextId s := by
  have h : u.id ≤ s.foldr (fun u m => max u.id m) 0 := by
    induction s with
    | nil => cases hu
    | cons v rest ih =>
      rcases List.mem_cons.mp hu with h | h
      · subst h; exact Nat.le_max_left _ _
      · exact Nat.le_trans (ih h) (Nat.le_max_right _ _)
  exact Nat.lt_succ_of_le h

theorem hasKey_iff {s : Store} {k : String} :
    hasKey s k = true ↔ ∃ u ∈ s, u.googleId = k := by
  simp [hasKey, List.any_eq_true]

theorem hasKey_false_iff {s : Store} {k : String} :
    hasKey s k = false ↔ ∀ u ∈ s, u.googleId ≠ k := by
  simp [hasKey, List.any_eq_false]

theorem updateRow_googleId (d : UserData) (u : User) :
    (updateRow d u).googleId = u.googleId := by
  unfold updateRow
  by_cases h : u.googleId = d.googleId <;> simp [h]

theorem updateRow_id (d : UserData) (u : User) :
    (updateRow d u).id = u.id := by
  unfold updateRow
  by_cases h : u.googleId = d.googleId <;> simp [h]

theorem updateRow_createdAt (d : UserData) (u : User) :
    (updateRow d u).createdAt = u.createdAt := by
  unfold updateRow
  by_cases h : u.googleId = d.googleId <;> simp [h]

theorem upsert_preserves_uniqueByGoogleId {s : Store} (t : Nat) (d : UserData)
    (h : uniqueByGoogleId s) : uniqueByGoogleId (upsert s t d) := by
  unfold upsert
  by_cases hk : hasKey s d.googleId
  · rw [if_pos hk]
    refine List.Pairwise.map _ (fun {a b} hab => ?_) h
    rw [updateRow_googleId, updateRow_googleId]
    exact hab
  · rw [if_neg hk]
    refine List.pairwise_append.mpr ⟨h, List.pairwise_singleton _ _, ?_⟩
    intro a ha b hb
    simp only [List.mem_singleton] at hb
    subst hb
    exact (hasKey_false_iff.mp (Bool.eq_false_iff.mpr hk) a ha)

theorem upsert_preserves_uniqueById {s : Store} (t : Nat) (d : UserData)
    (h : uniqueById s) : uniqueById (upsert s t d) := by
  unfold upsert
  by_cases hk : hasKey s d.googleId
  · rw [if_pos hk]
    refine List.Pairwise.map _ (fun {a b} hab => ?_) h
    rw [updateRow_id, updateRow_id]
    exact hab
  · rw [if_neg hk]
    refine List.pairwise_append.mpr ⟨h, List.pairwise_singleton _ _, ?_⟩
    intro a ha b hb
    simp only [List.mem_singleton] at hb
    subst hb
    intro hid
    exact absurd hid (Nat.ne_of_lt (id_lt_nextId ha))

theorem upsert_mem_key (s : Store) (t : Nat) (d : UserData) :
    ∃ u ∈ upsert s t d, u.googleId = d.googleId := by
  unfold upsert
  by_cases hk : hasKey s d.googleId
  · rw [if_pos hk]
    obtain ⟨u, hu, hkey⟩ := hasKey_iff.mp hk
    exact ⟨updateRow d u, List.mem_map.mpr ⟨u, hu, rfl⟩,
      (updateRow_googleId d u).trans hkey⟩
  · rw [if_neg hk]
    exact ⟨_, List.mem_append_right _ (List.mem_singleton_self _), rfl⟩

theorem upsert_mem_other {s : Store} {u : User} (t : Nat) (d : UserData)
    (hu : u ∈ s) (hne : u.googleId ≠ d.googleId) : u ∈ upsert s t d := by
  unfold upsert
  by_cases hk : hasKey s d.googleId
  · rw [if_pos hk]
    have h : updateRow d u = u := by unfold updateRow; rw [if_neg hne]
    exact h ▸ List.mem_map.mpr ⟨u, hu, rfl⟩
  · rw [if_neg hk]
    exact List.mem_append_left _ hu

theorem upsert_of_hasKey {s : Store} {d : UserData} (t : Nat)
    (hk : hasKey s d.googleId = true) :
    upsert s t d = List.map (updateRow d) s := by
  unfold upsert; rw [if_pos hk]

theorem updateRow_fields_of_key {d : UserData} {u : User}
    (h : u.googleId = d.googleId) :
    (updateRow d u).email = d.email ∧ (updateRow d u).name = d.name ∧
    (updateRow d u).picture = d.picture := by
  unfold updateRow; rw [if_pos h]; exact ⟨rfl, rfl, rfl⟩

theorem rowsFor_map_updateRow (s : Store) (d : UserData) (k : String) :
    rowsFor (List.map (updateRow d) s) k = List.map (updateRow d) (rowsFor s k) := by
  induction s with
  | nil => rfl
  | cons u rest ih =>
    by_cases h : u.googleId = k
    · simp only [rowsFor] at ih ⊢
      simp [List.filter_cons, updateRow_googleId, h, ih]
    · simp only [rowsFor] at ih ⊢
      simp [List.filter_cons, updateRow_googleId, h, ih]

theorem rowsFor_singleton {s : Store} {k : String} (hs : uniqueByGoogleId s)
    (hk : hasKey s k = true) :
    ∃ r ∈ s, rowsFor s k = [r] ∧ r.googleId = k := by
  induction s with
  | nil => simp [hasKey] at hk
  | cons u rest ih =>
    rcases List.pairwise_cons.mp hs with ⟨hhead, htail⟩
    by_cases h : u.googleId = k
    · refine ⟨u, List.mem_cons_self u rest, ?_, h⟩
      have hrest : rowsFor rest k = [] := by
        rw [rowsFor, List.filter_eq_nil_iff]
        intro b hb
        simp only [decide_eq_true_eq]
        intro hbk
        exact hhead b hb (h.trans hbk.symm)
      simpa [rowsFor, List.filter_cons, h] using hrest
    · have hk' : hasKey rest k = true := by
        rcases hasKey_iff.mp hk with ⟨v, hv, hvk⟩
        rcases List.mem_cons.mp hv with hvu | hv'
        · exact absurd (hvu ▸ hvk) h
        · exact hasKey_iff.mpr ⟨v, hv', hvk⟩
      obtain ⟨r, hr, hrows, hrk⟩ := ih htail hk'
      refine ⟨r, List.mem_cons_of_mem _ hr, ?_, hrk⟩
      simpa [rowsFor, List.filter_cons, h] using hrows

theorem applyUpserts_uniqueByGoogleId (ops : List (Nat × UserData)) :
    ∀ s : Store, uniqueByGoogleId s → uniqueByGoogleId (applyUpserts s ops) := by
  induction ops with
  | nil => intro s h; exact h
  | cons op rest ih =>
    intro s h
    exact ih _ (upsert_preserves_uniqueByGoogleId op.1 op.2 h)

theorem dashboardRoute_of_anonymous {s : Store} {st : SessionState}
    (h : resolveUser s st = none) (fault : Bool) :
    dashboardRoute s st fault = (Response.redirect "/login", s) := by
  unfold dashboardRoute ensureAuthenticated
  rw [h]
  rfl

theorem symmetric_email_rel :
    Symmetric (fun a b : User => a.email = none ∨ a.email ≠ b.email) := by
  intro a b hab
  rcases hab with ha | hne
  · cases hb : b.email with
    | none => exact Or.inl rfl
    | some x => exact Or.inr (by rw [ha]; exact fun h => Option.noConfusion h)
  · exact Or.inr (Ne.symm hne)

/-- C1: in both login completions that establish a session — the Google
callback route and the dev-login bypass — the 302 redirect to /dashboard
is never emitted before the session write is acknowledged by the backing
store; when the write is not acknowledged the error path runs instead and
no redirect is emitted. -/
theorem C1_session_write_acked_before_redirect (uid : Nat) (ackOk : Bool) :
    noDashboardRedirectBeforeAck (googleCallbackSuccess uid ackOk) = true ∧
    noDashboardRedirectBeforeAck (devLoginEvents uid ackOk) = true := by
  cases ackOk <;> exact ⟨rfl, rfl⟩

/-- C4: a request to the guarded dashboard route whose session state does
not resolve to a user is answered with a redirect to /login, is never a
200 render, and leaves the store unchanged. -/
theorem C4_unauthenticated_dashboard_redirects (s : Store)
    (st : SessionState) (storeFault : Bool) (h : resolveUser s st = none) :
    (dashboardRoute s st storeFault).1 = Response.redirect "/login" ∧
    (∀ v, (dashboardRoute s st storeFault).1 ≠ Response.renderOk v) ∧
    (dashboardRoute s st storeFault).2 = s := by
  rw [dashboardRoute_of_anonymous h]
  exact ⟨rfl, fun v hv => Response.noConfusion hv, rfl⟩

/-- C4 witness: with an empty store and no session the dashboard route
redirects to /login. -/
theorem C4_unauthenticated_dashboard_redirects_witness :
    resolveUser [] SessionState.noSession = none ∧
    (dashboardRoute [] SessionState.noSession false).1 =
      Response.redirect "/login" :=
  ⟨rfl, (C4_unauthenticated_dashboard_redirects [] SessionState.noSession
    false rfl).1⟩

/-- C5: a session whose stored principal reference no longer resolves to a
User row is treated as Anonymous: deserialization succeeds with no user
(no error is raised), resolution yields Anonymous, and the guarded route
completes normally with a redirect to /login rather than an error. -/
theorem C5_dangling_reference_is_anonymous (s : Store) (uid : Nat)
    (h : ∀ u ∈ s, u.id ≠ uid) :
    deserializeUser s false uid = Except.ok none ∧
    resolveUser s (SessionState.principal uid) = none ∧
    ∀ fault,
      (dashboardRoute s (SessionState.principal uid) fault).1 =
        Response.redirect "/login" ∧
      (dashboardRoute s (SessionState.principal uid) fault).1 ≠
        Response.errorNext := by
  have hfind : s.find? (fun u => u.id = uid) = none := by
    rw [List.find?_eq_none]
    intro u hu
    simpa using h u hu
  have hdes : deserializeUser s false uid = Except.ok none := by
    unfold deserializeUser
    rw [if_neg (fun hf => Bool.noConfusion hf), hfind]
  have hres : resolveUser s (SessionState.principal uid) = none := by
    simp only [resolveUser, hdes]
  refine ⟨hdes, hres, fun fault => ?_⟩
  rw [dashboardRoute_of_anonymous hres]
  exact ⟨rfl, fun hv => Response.noConfusion hv⟩

/-- C5 witness: a store holding only the user with id 1 treats a session
referencing id 2 as Anonymous and redirects to /login. -/
theorem C5_dangling_reference_is_anonymous_witness :
    (∀ u ∈ ([⟨1, "g", none, none, none, 0⟩] : Store), u.id ≠ 2) ∧
    deserializeUser [⟨1, "g", none, none, none, 0⟩] false 2 =
      Except.ok none ∧
    (dashboardRoute [⟨1, "g", none, none, none, 0⟩]
      (SessionState.principal 2) false).1 = Response.redirect "/login" := by
  have h := C5_dangling_reference_is_anonymous
    [⟨1, "g", none, none, none, 0⟩] 2 (by decide)
  exact ⟨by decide, h.1, (h.2.2 false).1⟩

/-- C6: a failed handshake at the callback route produces exactly a 302
redirect to /login: no session write happens and no error page (JSON or
rendered) is shown. -/
theorem C6_handshake_failure_redirects_login (ackOk : Bool) :
    googleCallbackRoute HandshakeOutcome.failure ackOk =
      [Event.respond (Response.redirect "/login")] ∧
    (∀ uid, Event.sessionWrite uid ∉
      googleCallbackRoute HandshakeOutcome.failure ackOk) ∧
    (∀ st m, Event.respond (Response.renderError st m) ∉
      googleCallbackRoute HandshakeOutcome.failure ackOk) ∧
    (∀ st m, Event.respond (Response.jsonError st m) ∉
      googleCallbackRoute HandshakeOutcome.failure ackOk) := by
  refine ⟨rfl, ?_, ?_, ?_⟩ <;> intros <;> simp [googleCallbackRoute]

/-- C2: upserting the same external id twice leaves exactly one row for
that id; its id and createdAt are those produced by the first upsert, and
its email and name are the values of the second payload. -/
theorem C2_upsert_same_key_twice (s : Store) (t1 t2 : Nat) (d1 d2 : UserData)
    (hs : uniqueByGoogleId s) (hk : d2.googleId = d1.googleId) :
    ∃ r1 r2 : User,
      rowsFor (upsert s t1 d1) d1.googleId = [r1] ∧
      rowsFor (upsert (upsert s t1 d1) t2 d2) d1.googleId = [r2] ∧
      r2.id = r1.id ∧ r2.createdAt = r1.createdAt ∧
      r2.email = d2.email ∧ r2.name = d2.name := by
  have hs1 := upsert_preserves_uniqueByGoogleId t1 d1 hs
  have hk1 : hasKey (upsert s t1 d1) d1.googleId = true := by
    obtain ⟨u, hu, huk⟩ := upsert_mem_key s t1 d1
    exact hasKey_iff.mpr ⟨u, hu, huk⟩
  obtain ⟨r1, hr1mem, hr1rows, hr1k⟩ := rowsFor_singleton hs1 hk1
  have hk2 : hasKey (upsert s t1 d1) d2.googleId = true := by
    rw [hk]; exact hk1
  refine ⟨r1, updateRow d2 r1, hr1rows, ?_, updateRow_id d2 r1,
    updateRow_createdAt d2 r1,
    (updateRow_fields_of_key (hr1k.trans hk.symm)).1,
    (updateRow_fields_of_key (hr1k.trans hk.symm)).2.1⟩
  rw [upsert_of_hasKey t2 hk2, rowsFor_map_updateRow, hr1rows]
  rfl

/-- C2 witness: the theorem applied to the empty store and two payloads
for the key "g". -/
theorem C2_upsert_same_key_twice_witness :
    uniqueByGoogleId ([] : Store) ∧
    (UserData.mk "g" (some "b") (some "Bea") none).googleId =
      (UserData.mk "g" (some "a") (some "Ann") none).googleId ∧
    (∃ r1 r2 : User,
      rowsFor (upsert [] 0 (UserData.mk "g" (some "a") (some "Ann") none))
        (UserData.mk "g" (some "a") (some "Ann") none).googleId = [r1] ∧
      rowsFor (upsert
          (upsert [] 0 (UserData.mk "g" (some "a") (some "Ann") none)) 1
          (UserData.mk "g" (some "b") (some "Bea") none))
        (UserData.mk "g" (some "a") (some "Ann") none).googleId = [r2] ∧
      r2.id = r1.id ∧ r2.createdAt = r1.createdAt ∧
      r2.email = (UserData.mk "g" (some "b") (some "Bea") none).email ∧
      r2.name = (UserData.mk "g" (some "b") (some "Bea") none).name) :=
  ⟨List.Pairwise.nil, rfl,
    C2_upsert_same_key_twice [] 0 1 _ _ List.Pairwise.nil rfl⟩

/-- C3: after any sequence of upserts from the empty store the table holds
at most one row per external id (pairwise distinct googleIds), and for
distinct external ids A and B, upserting A and then B over any well-formed
store leaves rows for A and for B with distinct ids. -/
theorem C3_one_row_per_external_id :
    (∀ ops : List (Nat × UserData),
      uniqueByGoogleId (applyUpserts [] ops)) ∧
    (∀ (s : Store) (tA tB : Nat) (dA dB : UserData),
      uniqueByGoogleId s → uniqueById s → dA.googleId ≠ dB.googleId →
      ∃ uA ∈ upsert (upsert s tA dA) tB dB,
        ∃ uB ∈ upsert (upsert s tA dA) tB dB,
          uA.googleId = dA.googleId ∧ uB.googleId = dB.googleId ∧
          uA.id ≠ uB.id) := by
  constructor
  · intro ops
    exact applyUpserts_uniqueByGoogleId ops [] List.Pairwise.nil
  · intro s tA tB dA dB hkey hid hne
    obtain ⟨uA, huA1, huAk⟩ := upsert_mem_key s tA dA
    have huA2 : uA ∈ upsert (upsert s tA dA) tB dB :=
      upsert_mem_other tB dB huA1 (by rw [huAk]; exact hne)
    obtain ⟨uB, huB2, huBk⟩ := upsert_mem_key (upsert s tA dA) tB dB
    have hid2 : uniqueById (upsert (upsert s tA dA) tB dB) :=
      upsert_preserves_uniqueById tB dB
        (upsert_preserves_uniqueById tA dA hid)
    have hABne : uA ≠ uB := by
      intro heq
      apply hne
      rw [← huAk, ← huBk, heq]
    refine ⟨uA, huA2, uB, huB2, huAk, huBk, ?_⟩
    exact List.Pairwise.forall (fun a b hab => Ne.symm hab) hid2 huA2 huB2
      hABne

/-- C3 witness: the theorem applied to a one-upsert sequence and to the
empty store with the distinct keys "gA" and "gB". -/
theorem C3_one_row_per_external_id_witness :
    uniqueByGoogleId (applyUpserts [] [(0, devTestUser)]) ∧
    (∃ uA ∈ upsert (upsert [] 0 (UserData.mk "gA" none none none)) 1
        (UserData.mk "gB" none none none),
      ∃ uB ∈ upsert (upsert [] 0 (UserData.mk "gA" none none none)) 1
          (UserData.mk "gB" none none none),
        uA.googleId = (UserData.mk "gA" none none none).googleId ∧
        uB.googleId = (UserData.mk "gB" none none none).googleId ∧
        uA.id ≠ uB.id) :=
  ⟨C3_one_row_per_external_id.1 [(0, devTestUser)],
   C3_one_row_per_external_id.2 [] 0 1 _ _ List.Pairwise.nil
     List.Pairwise.nil (by decide)⟩

/-- C7 counterexample: the fault with status 503 is server-caused, yet the
boundary answers a JSON-only client with the real message instead of the
generic masked one: masking does not occur for every server-caused
fault. -/
theorem C7_masking_counterexample :
    isServerFault (Err.mk (some 503) "store connection refused") ∧
    errorBoundary (Err.mk (some 503) "store connection refused") true false =
      Response.jsonError 503 "store connection refused" ∧
    "store connection refused" ≠ "Internal server error" :=
  ⟨by decide, rfl, by decide⟩

/-- C7 amended: the boundary answers with a JSON body exactly when the
client accepts json and not html, else a rendered page; either shape
carries the fault effective status, and the message shown is the generic
masked one exactly when the effective status is 500 (the default for
faults carrying no status), the real message otherwise. -/
theorem C7_amended_error_boundary (e : Err) (aj ah : Bool) :
    shownStatus (errorBoundary e aj ah) = some (errStatus e) ∧
    ((∃ m, errorBoundary e aj ah = Response.jsonError (errStatus e) m) ↔
      (aj = true ∧ ah = false)) ∧
    shownMessage (errorBoundary e aj ah) =
      some (if errStatus e = 500 then
              (if aj && !ah then "Internal server error"
               else "Ocorreu um erro inesperado.")
            else e.message) := by
  cases aj <;> cases ah <;>
    by_cases h : errStatus e = 500 <;>
      simp [errorBoundary, shownStatus, shownMessage, h]

/-- C8 counterexample: two upserts the code can perform produce a store
that satisfies every schema constraint while two distinct rows hold the
same non-null name "Ann": name is not unique-or-nullable. -/
theorem C8_name_not_unique_counterexample :
    schemaValid (applyUpserts []
      [(0, UserData.mk "g1" (some "a") (some "Ann") none),
       (1, UserData.mk "g2" (some "b") (some "Ann") none)]) ∧
    ¬ colUniqueOrNullable (fun u => u.name)
      (applyUpserts []
        [(0, UserData.mk "g1" (some "a") (some "Ann") none),
         (1, UserData.mk "g2" (some "b") (some "Ann") none)]) :=
  ⟨by decide, by decide⟩

/-- C8 amended: among the optional profile attributes only email is
unique-or-nullable under the schema constraints: in every schema-valid
store no two distinct rows hold the same non-null email, while name and
picture carry no uniqueness constraint. -/
theorem C8_amended_email_unique (s : Store) (h : schemaValid s) :
    ∀ u ∈ s, ∀ v ∈ s, u ≠ v →
      ∀ x : String, u.email = some x → v.email ≠ some x := by
  intro u hu v hv huv x hux hvx
  have hrel := List.Pairwise.forall symmetric_email_rel h.2.2 hu hv huv
  rcases hrel with hnone | hne
  · rw [hux] at hnone; exact Option.noConfusion hnone
  · rw [hux, hvx] at hne; exact hne rfl

/-- C8 amended witness: a two-row schema-valid store with distinct
non-null emails satisfies the email-uniqueness conclusion. -/
theorem C8_amended_email_unique_witness :
    schemaValid [⟨1, "g1", some "a", none, none, 0⟩,
                 ⟨2, "g2", some "b", none, none, 0⟩] ∧
    (∀ u ∈ ([⟨1, "g1", some "a", none, none, 0⟩,
             ⟨2, "g2", some "b", none, none, 0⟩] : Store),
      ∀ v ∈ ([⟨1, "g1", some "a", none, none, 0⟩,
              ⟨2, "g2", some "b", none, none, 0⟩] : Store),
      u ≠ v → ∀ x : String, u.email = some x → v.email ≠ some x) :=
  ⟨by decide, C8_amended_email_unique _ (by decide)⟩

/-- C9: contrary to the claim, the dev-login bypass is reachable in every
environment: its route is registered and the dev-login UI flag is set even
when NODE_ENV is "production". -/
theorem C9_devLogin_reachable_in_production :
    "/dev-login" ∈ registeredRoutes ⟨none, none, some "production"⟩ ∧
    showDevLogin ⟨none, none, some "production"⟩ = true := by
  exact ⟨by simp [registeredRoutes], rfl⟩

/-- C10: the session cookie attributes are literal constants independent of
every configuration input: httpOnly is true, maxAge is 24 hours in
milliseconds, and secure is false. -/
theorem C10_cookie_attributes_constant (env : Env) :
    (sessionOptions env).cookie.httpOnly = true ∧
    (sessionOptions env).cookie.maxAge = 1000 * 60 * 60 * 24 ∧
    (sessionOptions env).cookie.secure = false :=
  ⟨rfl, rfl, rfl⟩

end OpenIDDemo
